import Mathlib

/-!
Verification of the mp3hash tag-boundary resolver and ranged hasher
(mp3hash.py). Files are modelled as lists of byte values; the open
file handle of the hasher is a record tracking data, read position and
the closed flag. Python struct unpacking with format >i is modelled by
sbe32 (big-endian signed 32-bit); reads past end of file return the
available bytes, as Python file.read does.
-/

/-- Block size used by hashfile: 512 KiB. -/
def blocksize : Nat := 524288

/-- Python read of n bytes at position pos: bytes pos to pos+n, truncated at EOF. -/
def readAt (f : List Nat) (pos n : Nat) : List Nat := (f.drop pos).take n

/-- struct.unpack with format >i : big-endian signed 32-bit integer from 4 bytes. -/
def sbe32 (a b c d : Nat) : Int :=
  let u : Nat := a * 16777216 + b * 65536 + c * 256 + d
  if u < 2147483648 then (u : Int) else (u : Int) - 4294967296

/-- Modelled from the spec: synchsafe big-endian decoding where each byte
contributes only its low 7 bits.  This is the decoding the unit test module
for 7-bit integers demands of the repository function parse_7bitint, a
function absent from the source file under verification. -/
def parse_7bitint (bytes : List Nat) : Nat :=
  bytes.foldl (fun acc b => acc * 128 + b % 128) 0

/-- ASCII marker TAG. -/
def tagMarker : List Nat := [84, 65, 71]

/-- ASCII marker TAG+. -/
def tagExtMarker : List Nat := [84, 65, 71, 43]

/-- ASCII marker ID3. -/
def id3Marker : List Nat := [73, 68, 51]

/-- TaggedFile.has_id3v1: file of at least 128 bytes whose last 128 bytes
start with TAG. -/
def has_id3v1 (f : List Nat) : Bool :=
  if f.length < 128 then false
  else readAt f (f.length - 128) 3 == tagMarker

/-- TaggedFile.has_id3v1ext: file of at least 128+227 bytes with TAG+ at
227 bytes before the regular tag. -/
def has_id3v1ext (f : List Nat) : Bool :=
  if f.length < 128 + 227 then false
  else readAt f (f.length - (227 + 128)) 4 == tagExtMarker

/-- TaggedFile.id3v1ext_size. -/
def id3v1ext_size (f : List Nat) : Nat :=
  if has_id3v1ext f then 227 else 0

/-- TaggedFile.id3v1_size. -/
def id3v1_size (f : List Nat) : Nat :=
  if has_id3v1 f then 128 else 0

/-- TaggedFile.id3v1_totalsize. -/
def id3v1_totalsize (f : List Nat) : Nat :=
  id3v1_size f + id3v1ext_size f

/-- TaggedFile.has_id3v2: file of at least 10 bytes starting with ID3. -/
def has_id3v2 (f : List Nat) : Bool :=
  if f.length < 10 then false
  else readAt f 0 3 == id3Marker

/-- TaggedFile.id3v2_size: 0 without a tag, otherwise the 4 bytes at
offset 6 unpacked with format >i, plus 10 for the header.  The wildcard
arm is unreachable: a present tag forces at least 10 bytes. -/
def id3v2_size (f : List Nat) : Int :=
  if !(has_id3v2 f) then 0
  else match readAt f 6 4 with
    | [a, b, c, d] => sbe32 a b c d + 10
    | _ => 0

/-- TaggedFile.has_id3v2ext: guarded by filesize < id3v2_size, then the
byte at offset 5 unpacked with format >b and masked with 0x40.  The none
arm models the struct.error raised when fewer than 6 bytes exist, since
read(1) then returns the empty string.  Masking the raw byte with 0x40
agrees with masking its signed reading, as 0x40 sits below the sign bit. -/
def has_id3v2ext (f : List Nat) : Option Bool :=
  if (f.length : Int) < id3v2_size f then some false
  else match readAt f 5 1 with
    | [fl] => some (fl.land 64 != 0)
    | _ => none

/-- TaggedFile.id3v2ext_size: 0 when either presence test fails, with the
Python or short-circuiting before the extended check when no tag exists.
When both tests pass the body always raises before returning: unpacking
the two flag bytes into a single variable raises ValueError, and the later
struct.upnack attribute is undefined; that path is modelled as none. -/
def id3v2ext_size (f : List Nat) : Option Int :=
  if !(has_id3v2 f) then some 0
  else match has_id3v2ext f with
    | none => none
    | some false => some 0
    | some true => none

/-- TaggedFile.id3v2_totalsize. -/
def id3v2_totalsize (f : List Nat) : Option Int :=
  (id3v2ext_size f).map (fun e => id3v2_size f + e)

/-- TaggedFile.startbyte. -/
def startbyte (f : List Nat) : Option Int :=
  id3v2_totalsize f

/-- TaggedFile.endbyte: seek(-id3v1_totalsize, 2) then tell().  The seek
offset never exceeds the file size (lemma id3v1_totalsize_le), so the
result is the file size minus the total id3v1 size. -/
def endbyte (f : List Nat) : Int :=
  (f.length : Int) - (id3v1_totalsize f : Int)

/-- TaggedFile.musiclimits. -/
def musiclimits (f : List Nat) : Option (Int × Int) :=
  (startbyte f).map (fun s => (s, endbyte f))

/-- TaggedFile.music_size. -/
def music_size (f : List Nat) : Option Int :=
  (id3v2_totalsize f).map
    (fun t => (f.length : Int) - (id3v1_totalsize f : Int) - t)

/-- An open file handle as hashfile sees it. -/
structure OFile where
  data : List Nat
  pos : Nat
  closed : Bool

/-- file.read(n): returns up to n bytes from the current position and
advances the position by the number of bytes actually read. -/
def oread (f : OFile) (n : Nat) : List Nat × OFile :=
  let b := (f.data.drop f.pos).take n
  (b, { f with pos := f.pos + b.length })

/-- The block loop of hashfile: each iteration first feeds the block held
from the previous step to the hasher, then reads the next block.  State is
the handle, the block variable and the bytes fed so far. -/
def hashloop : Nat → OFile → List Nat → List Nat → OFile × List Nat × List Nat
  | 0, f, block, fed => (f, block, fed)
  | n + 1, f, block, fed =>
      hashloop n (oread f blocksize).2 (oread f blocksize).1 (fed ++ block)

/-- hashfile: truthiness of maxbytes caps the end, seek to start, feed the
spare bytes first when the size is no multiple of the block size, then run
the block loop; the finally clause closes the handle.  Returns the bytes
fed to the hasher (whose digest the real code finalizes) and the final
handle state. -/
def hashfile (f : OFile) (start e : Nat) (maxbytes : Option Nat) :
    List Nat × OFile :=
  let e := match maxbytes with
    | some m => if m != 0 then min e (start + m) else e
    | none => e
  let f := { f with pos := start }
  let size := e - start
  let nblocks := size / blocksize
  let firstblocksize := size % blocksize
  let st :=
    if firstblocksize > 0 then
      let r := oread f firstblocksize
      (r.2, r.1, r.1)
    else (f, ([] : List Nat), ([] : List Nat))
  let r := hashloop nblocks st.1 st.2.1 st.2.2
  (r.2.2, { r.1 with closed := true })

/-- Outcome of the mp3hash entry point, abstracting the file system to
whether os.path.isfile holds for the path. -/
inductive MpAction where
  | raiseValueError
  | hashFile
  | returnNone
deriving DecidableEq

/-- mp3hash: validates maxbytes before touching the file system, then
either hashes the file or returns None when the path is no regular file. -/
def mp3hash_action (isfile : Bool) (maxbytes : Option Int) : MpAction :=
  match maxbytes with
  | some m =>
      if m ≤ 0 then MpAction.raiseValueError
      else if isfile then MpAction.hashFile else MpAction.returnNone
  | none => if isfile then MpAction.hashFile else MpAction.returnNone

set_option maxRecDepth 100000

/-- A present id3v1 tag forces at least 128 bytes of file. -/
theorem has_id3v1_length {f : List Nat} (h : has_id3v1 f = true) :
    128 ≤ f.length := by
  unfold has_id3v1 at h
  by_cases hl : f.length < 128
  · simp [hl] at h
  · omega

/-- A present extended id3v1 tag forces at least 355 bytes of file. -/
theorem has_id3v1ext_length {f : List Nat} (h : has_id3v1ext f = true) :
    355 ≤ f.length := by
  unfold has_id3v1ext at h
  by_cases hl : f.length < 128 + 227
  · simp [hl] at h
  · omega

/-- The id3v1 side never claims more bytes than the file holds, so the
seek performed by endbyte stays inside the file. -/
theorem id3v1_totalsize_le (f : List Nat) : id3v1_totalsize f ≤ f.length := by
  unfold id3v1_totalsize id3v1_size id3v1ext_size
  cases hb1 : has_id3v1 f <;> cases hb2 : has_id3v1ext f
  · simp
  · have := has_id3v1ext_length hb2
    simp [hb1, hb2]
    omega
  · have := has_id3v1_length hb1
    simp [hb1, hb2]
    omega
  · have := has_id3v1ext_length hb2
    simp [hb1, hb2]
    omega

/-- The block loop leaves the data and the closed flag of the handle
untouched; only the position moves. -/
theorem hashloop_data (n : Nat) (g : OFile) (b fd : List Nat) :
    (hashloop n g b fd).1.data = g.data ∧
    (hashloop n g b fd).1.closed = g.closed := by
  induction n generalizing g b fd with
  | zero => exact ⟨rfl, rfl⟩
  | succ n ih =>
      have hstep : hashloop (n + 1) g b fd
          = hashloop n (oread g blocksize).2 (oread g blocksize).1 (fd ++ b) := rfl
      rw [hstep]
      exact ih _ _ _

/-- Claim C1: the claim says hashfile feeds the hash accumulator exactly
the bytes of the effective range.  The code contradicts its own docstring:
for a range of exactly one full block the loop feeds the previous (empty)
block and reads the full block without ever feeding it, so nothing at all
is hashed. -/
theorem C1_hashfile_drops_final_block :
    (hashfile ⟨List.replicate blocksize 1, 0, false⟩ 0 blocksize none).1 = [] ∧
    readAt (List.replicate blocksize 1) 0 blocksize = List.replicate blocksize 1 ∧
    List.replicate blocksize 1 ≠ [] := by
  refine ⟨rfl, by simp [readAt], ?_⟩
  apply List.ne_nil_of_length_pos
  rw [List.length_replicate]
  norm_num [blocksize]

/-- Claim C2: the claim says the 4-byte size field is decoded synchsafe.
The code unpacks it with struct format >i, a plain big-endian signed
32-bit integer: the three test vectors of the claim all decode to other
values than the synchsafe reference decoding. -/
theorem C2_size_decode_signed_not_synchsafe :
    id3v2_size [73, 68, 51, 3, 0, 0, 8, 4, 2, 1] = 134480395 ∧
    sbe32 8 4 2 1 = 134480385 ∧ parse_7bitint [8, 4, 2, 1] = 16843009 ∧
    sbe32 128 128 128 128 = -2139062144 ∧ parse_7bitint [128, 128, 128, 128] = 0 ∧
    sbe32 255 255 255 255 = -1 ∧ parse_7bitint [255, 255, 255, 255] = 268435455 ∧
    (134480385 : Int) ≠ 16843009 := by decide

/-- Claim C3 counterexample: the claim says every file satisfies
0 <= startbyte <= endbyte <= filesize.  A 10-byte file whose header
declares size bytes 80 00 00 00 makes the signed 32-bit decoding negative,
so startbyte is far below zero. -/
theorem C3_startbyte_negative :
    ¬ (∀ (f : List Nat) (s : Int), startbyte f = some s →
        0 ≤ s ∧ s ≤ endbyte f ∧ endbyte f ≤ (f.length : Int)) := by
  intro hall
  have h := hall [73, 68, 51, 3, 0, 0, 128, 0, 0, 0] (-2147483638) (by decide)
  have hneg : ¬ (0 ≤ (-2147483638 : Int)) := by decide
  exact hneg h.1

/-- Claim C3 amended: for every file 0 <= endbyte <= filesize, and when no
ID3v2 marker is present the startbyte is 0, so the full chain holds for
ID3v2-less files; a pathological declared ID3v2 size can push startbyte
below zero or beyond endbyte. -/
theorem C3_bounds_amended (f : List Nat) :
    0 ≤ endbyte f ∧ endbyte f ≤ (f.length : Int) ∧
    (has_id3v2 f = false → startbyte f = some 0) := by
  have hle := id3v1_totalsize_le f
  refine ⟨?_, ?_, fun h => ?_⟩
  · unfold endbyte
    omega
  · unfold endbyte
    omega
  · simp [startbyte, id3v2_totalsize, id3v2ext_size, id3v2_size, h]

/-- Witness for the amended C3 bounds at a concrete one-byte file. -/
theorem C3_bounds_amended_witness :
    0 ≤ endbyte [0] ∧ endbyte [0] ≤ (([0] : List Nat).length : Int) ∧
    startbyte [0] = some 0 :=
  ⟨(C3_bounds_amended [0]).1, (C3_bounds_amended [0]).2.1,
    (C3_bounds_amended [0]).2.2 (by decide)⟩

/-- Claim C4: the claim says id3v2_size is 10 plus the synchsafe body size
plus 10 more for a v2.4 footer.  The code never inspects version or flags
and decodes the size as plain signed big-endian: both claim headers yield
523 instead of 267 and 277. -/
theorem C4_id3v2_size_ignores_version_and_footer :
    id3v2_size [73, 68, 51, 3, 0, 0, 0, 0, 2, 1] = 523 ∧
    id3v2_size [73, 68, 51, 4, 0, 16, 0, 0, 2, 1] = 523 ∧
    (523 : Int) ≠ 267 ∧ (523 : Int) ≠ 277 := by decide

/-- Claim C5: the claim says id3v2ext_size successfully reads the extended
header and returns its total, added into id3v2_totalsize.  On a file whose
flags request the extended header the body always raises (ValueError on
unpacking two flag bytes into one variable, and the struct.upnack typo),
modelled as none, which then poisons id3v2_totalsize as well. -/
theorem C5_id3v2ext_size_never_returns :
    has_id3v2ext ([73, 68, 51, 3, 0, 64, 0, 0, 2, 1] ++ List.replicate 513 7)
      = some true ∧
    id3v2ext_size ([73, 68, 51, 3, 0, 64, 0, 0, 2, 1] ++ List.replicate 513 7)
      = none ∧
    id3v2_totalsize ([73, 68, 51, 3, 0, 64, 0, 0, 2, 1] ++ List.replicate 513 7)
      = none := by decide

/-- Claim C6: mp3hash validates maxbytes first: any supplied value at or
below zero raises ValueError before the file system is consulted, whether
or not the path names a regular file. -/
theorem C6_mp3hash_rejects_nonpositive_maxbytes (isfile : Bool) (m : Int)
    (h : m ≤ 0) :
    mp3hash_action isfile (some m) = MpAction.raiseValueError := by
  simp [mp3hash_action, h]

/-- Witness for C6 at maxbytes 0 on an existing file. -/
theorem C6_mp3hash_rejects_nonpositive_maxbytes_witness :
    (0 : Int) ≤ 0 ∧ mp3hash_action true (some 0) = MpAction.raiseValueError :=
  ⟨le_refl 0, C6_mp3hash_rejects_nonpositive_maxbytes true 0 (le_refl 0)⟩

/-- Claim C7: files below 128 bytes have no id3v1 tag and size 0; from 128
bytes on the tag is present exactly when the last 128 bytes start with
TAG, and the size is 128 when present and 0 when absent. -/
theorem C7_id3v1_detection (f : List Nat) :
    (f.length < 128 → has_id3v1 f = false ∧ id3v1_size f = 0) ∧
    (128 ≤ f.length →
      has_id3v1 f = (readAt f (f.length - 128) 3 == tagMarker)) ∧
    (has_id3v1 f = true → id3v1_size f = 128) ∧
    (has_id3v1 f = false → id3v1_size f = 0) := by
  refine ⟨fun h => ⟨?_, ?_⟩, fun h => ?_, fun h => ?_, fun h => ?_⟩
  · simp [has_id3v1, h]
  · simp [id3v1_size, has_id3v1, h]
  · have hn : ¬ (f.length < 128) := by omega
    simp [has_id3v1, hn]
  · simp [id3v1_size, h]
  · simp [id3v1_size, h]

/-- Witness for C7: the 128-byte file TAG plus filler carries a 128-byte
tag, and a 127-byte file carries none. -/
theorem C7_id3v1_detection_witness :
    id3v1_size (tagMarker ++ List.replicate 125 0) = 128 ∧
    has_id3v1 (List.replicate 127 0) = false ∧
    id3v1_size (List.replicate 127 0) = 0 :=
  ⟨(C7_id3v1_detection (tagMarker ++ List.replicate 125 0)).2.2.1 (by decide),
    ((C7_id3v1_detection (List.replicate 127 0)).1 (by decide)).1,
    ((C7_id3v1_detection (List.replicate 127 0)).1 (by decide)).2⟩

/-- Claim C8 counterexample: the claim says hashfile never closes the
caller-supplied source.  After hashing a concrete 3-byte file the handle
is closed: the finally clause of hashfile calls close unconditionally. -/
theorem C8_hashfile_closes_source :
    (hashfile ⟨[1, 2, 3], 0, false⟩ 0 3 none).2.closed = true := by decide

/-- Claim C8 amended: hashfile touches only the read position of the
handle, leaving the data untouched, and always closes the handle before
returning, so the caller-supplied file object is closed afterwards. -/
theorem C8_frame_amended (f : OFile) (start e : Nat) (mb : Option Nat) :
    (hashfile f start e mb).2.closed = true ∧
    (hashfile f start e mb).2.data = f.data := by
  refine ⟨rfl, ?_⟩
  unfold hashfile
  dsimp only
  rw [(hashloop_data _ _ _ _).1]
  split <;> rfl

/-- Claim C9: the reported music byte count equals the length of the music
range: whenever the resolver computes the limits at all, music_size is the
difference of the two components of musiclimits. -/
theorem C9_music_size_consistent (f : List Nat) :
    music_size f = (musiclimits f).map (fun p => p.2 - p.1) := by
  unfold music_size musiclimits startbyte id3v2_totalsize endbyte
  cases h : id3v2ext_size f
  · simp
  · simp

/-- Claim C10: a file of at least 355 bytes carrying TAG+ at offset
filesize - 355 has the extended id3v1 tag, sized 227 and counted in
id3v1_totalsize, moving endbyte 227 bytes ahead of the file end, even when
the regular TAG marker is absent. -/
theorem C10_id3v1ext_independent (f : List Nat) (h355 : 355 ≤ f.length)
    (hext : readAt f (f.length - 355) 4 = tagExtMarker)
    (hno : has_id3v1 f = false) :
    has_id3v1ext f = true ∧ id3v1ext_size f = 227 ∧
    id3v1_totalsize f = 227 ∧ endbyte f = (f.length : Int) - 227 := by
  have hb : has_id3v1ext f = true := by
    unfold has_id3v1ext
    have hn : ¬ (f.length < 128 + 227) := by omega
    simp [hn]
    convert hext using 3
  have hsz : id3v1ext_size f = 227 := by simp [id3v1ext_size, hb]
  have htot : id3v1_totalsize f = 227 := by
    simp [id3v1_totalsize, id3v1_size, hno, hsz]
  refine ⟨hb, hsz, htot, ?_⟩
  unfold endbyte
  rw [htot]
  norm_num

/-- Witness for C10: the 355-byte file TAG+ followed by filler has the
extended tag alone, counted as 227 bytes. -/
theorem C10_id3v1ext_independent_witness :
    355 ≤ (tagExtMarker ++ List.replicate 351 0).length ∧
    id3v1_totalsize (tagExtMarker ++ List.replicate 351 0) = 227 ∧
    endbyte (tagExtMarker ++ List.replicate 351 0)
      = ((tagExtMarker ++ List.replicate 351 0).length : Int) - 227 :=
  ⟨by decide,
    (C10_id3v1ext_independent _ (by decide) (by decide) (by decide)).2.2.1,
    (C10_id3v1ext_independent _ (by decide) (by decide) (by decide)).2.2.2⟩
